import Mathlib

/-!
Verification of the iterative problem-variant generator:
a shallow embedding of the `Problem` entity, the heuristic scorer,
the mutation operation, configuration validation and the per-round
selection loop, together with theorems settling the specified
properties. Python floats are modelled by exact rationals; the
external readability library (textstat) and the text-generation
backend are modelled as function parameters.
-/

/-- Python whitespace predicate used by str.split and str.strip
(ASCII whitespace suffices for the model). -/
def pySpace (c : Char) : Bool :=
  c == ' ' || c == '\t' || c == '\n' || c == '\r' || c == Char.ofNat 11 || c == Char.ofNat 12

/-- Accumulator-based worker for `pySplitWords`. -/
def pySplitAux : List Char → List Char → List (List Char)
  | [], acc => if acc.isEmpty then [] else [acc.reverse]
  | c :: cs, acc =>
    if pySpace c then
      if acc.isEmpty then pySplitAux cs [] else acc.reverse :: pySplitAux cs []
    else pySplitAux cs (c :: acc)

/-- Python `str.split()` with no argument: split on runs of whitespace,
discarding empty words. -/
def pySplitWords (s : List Char) : List (List Char) :=
  pySplitAux s []

/-- Python `str.strip()`: remove leading and trailing whitespace. -/
def pyStrip (s : List Char) : List Char :=
  ((s.dropWhile pySpace).reverse.dropWhile pySpace).reverse

/-- Fuel-based worker for `countSubstr`. -/
def countSubstrAux (pat : List Char) : Nat → List Char → Nat
  | 0, _ => 0
  | _ + 1, [] => 0
  | fuel + 1, c :: cs =>
    if pat.isPrefixOf (c :: cs) then
      1 + countSubstrAux pat fuel (List.drop pat.length (c :: cs))
    else
      countSubstrAux pat fuel cs

/-- Python `str.count(pat)` for a non-empty pattern: number of
non-overlapping occurrences, scanning left to right. -/
def countSubstr (pat s : List Char) : Nat :=
  countSubstrAux pat s.length s

/-- The `Problem` dataclass of src/problem.py.  `id` and `created_at`
are opaque in the source (uuid4 and datetime.now); they are modelled
as naturals supplied by the environment. Scores are exact rationals. -/
structure Problem where
  id : Nat
  content : String
  score : Rat
  parent_id : Option Nat
  mutations : List String
  created_at : Nat
deriving DecidableEq

/-- Model of `Problem.create(content, parent_id)` from src/problem.py: fresh id,
given content, score 0, the given parent, and (via `__post_init__`)
an empty mutations list and the current timestamp.  The fresh id and
the timestamp are passed in by the caller, standing for uuid4() and
datetime.now(). -/
def Problem.create (freshId timestamp : Nat) (content : String)
    (parentId : Option Nat) : Problem :=
  Problem.mk freshId content 0 parentId [] timestamp

/-- The fixed technical vocabulary of `_calculate_complexity`. -/
def technical_terms : List (List Char) :=
  ["implement".data, "design".data, "optimize".data, "algorithm".data, "system".data]

/-- Model of `_calculate_complexity` from src/processor.py: average of a length
score, a technical-term score and a nested-structure score. -/
def calculate_complexity (problem : Problem) : Rat :=
  let words := pySplitWords problem.content.data
  let word_count := words.length
  let length_score : Rat := min ((word_count : Rat) / 100) 1
  let tech_score : Rat :=
    ((words.countP fun w => technical_terms.contains (w.map Char.toLower)) : Rat)
      / (technical_terms.length : Rat)
  let nested_score : Rat := ((countSubstr ("\n- ".data) problem.content.data) : Rat) / 10
  (length_score + tech_score + nested_score) / 3

/-- Model of `_calculate_clarity` from src/processor.py: average of the
normalized Flesch reading-ease score (the external textstat call is
the parameter `flesch`), a paragraph-structure score and a
formatting score. -/
def calculate_clarity (flesch : String → Rat) (problem : Problem) : Rat :=
  let readability := flesch problem.content / 100
  let paragraphs := countSubstr ("\n\n".data) problem.content.data + 1
  let structure_score : Rat := min ((paragraphs : Rat) / 5) 1
  let format_score : Rat :=
    if pyStrip problem.content.data = problem.content.data then 1 else 8 / 10
  (readability + structure_score + format_score) / 3

/-- Model of `_calculate_diversity` from src/processor.py: number of distinct
mutation labels in the lineage, scaled and capped at 1. -/
def calculate_diversity (problem : Problem) : Rat :=
  let mutation_variety := problem.mutations.dedup.length
  min ((mutation_variety : Rat) / 3) 1

/-- Model of `evaluate_problem` from src/processor.py: the average of the four
factors complexity, clarity, diversity and mutation quality. -/
def evaluate_problem (flesch : String → Rat) (problem : Problem) : Rat :=
  (calculate_complexity problem + calculate_clarity flesch problem +
    calculate_diversity problem + (problem.mutations.length : Rat) / 10) / 4

/-- Model of `MutationHandler.mutate` from src/mutation.py.  `prompts` models the
prompt-template directory: for a mutation type it yields the formatted
template as a function of the parent content, or `none` when the file
is missing (`load_prompt` raises FileNotFoundError).  `backend` models
the chat-completion call: from the system prompt and the user payload
it yields the first completion text, or `none` when the call raises.
`freshId`/`timestamp` stand for uuid4()/datetime.now() inside
`Problem.create`.  Both failure paths surface as `Except.error`, the
second one re-raised as the generic "Mutation failed" message. -/
def mutate (prompts : String → Option (String → String))
    (backend : String → String → Option String)
    (freshId timestamp : Nat) (problem : Problem) (mutation_type : String) :
    Except String Problem :=
  match prompts mutation_type with
  | none => Except.error ("Prompt file not found: " ++ mutation_type)
  | some tmpl =>
    let prompt := tmpl problem.content
    match backend prompt problem.content with
    | none => Except.error "Mutation failed"
    | some new_content =>
      let new_problem := Problem.create freshId timestamp new_content (some problem.id)
      Except.ok (Problem.mk new_problem.id new_problem.content new_problem.score
        new_problem.parent_id (problem.mutations ++ [mutation_type])
        new_problem.created_at)

/-- Translation of `mutate` with the parent object threaded through explicitly,
statement by statement, returning alongside the result the parent as
it stands after the call.  Every statement of the source only reads
the parent (`problem.content`, `problem.id`, `problem.mutations`) and
the lineage assignment targets the child with a freshly concatenated
list, so each branch returns the parent it received. -/
def mutateTracked (prompts : String → Option (String → String))
    (backend : String → String → Option String)
    (freshId timestamp : Nat) (problem : Problem) (mutation_type : String) :
    Except String Problem × Problem :=
  match prompts mutation_type with
  | none => (Except.error ("Prompt file not found: " ++ mutation_type), problem)
  | some tmpl =>
    let prompt := tmpl problem.content
    match backend prompt problem.content with
    | none => (Except.error "Mutation failed", problem)
    | some new_content =>
      let new_problem := Problem.create freshId timestamp new_content (some problem.id)
      (Except.ok (Problem.mk new_problem.id new_problem.content new_problem.score
        new_problem.parent_id (problem.mutations ++ [mutation_type])
        new_problem.created_at), problem)

/-- The command-line arguments of src/main.py (argparse, type=int for
the numeric options, so negatives are representable). -/
structure Args where
  seed : Int
  agent : String
  num_rounds : Int
  num_problems : Int
  topk_problems : Int
  mutate_on_start : Bool
  openai_api_key : String

/-- The `Config` dataclass of src/config.py. -/
structure Config where
  seed : Int
  agent : String
  num_rounds : Int
  num_problems : Int
  topk_problems : Int
  mutate_on_start : Bool
  openai_api_key : String
  current_round : Int

/-- Model of `Config.from_args` from src/config.py: the four validation checks
in source order (each raising ValidationError, modelled as
`Except.error` with the source message), then construction. -/
def Config.from_args (args : Args) : Except String Config :=
  if args.num_rounds < 1 then Except.error "num_rounds must be positive"
  else if args.num_problems < 1 then Except.error "num_problems must be positive"
  else if args.topk_problems < 1 then Except.error "topk_problems must be positive"
  else if args.topk_problems > args.num_problems then
    Except.error "topk_problems cannot exceed num_problems"
  else Except.ok (Config.mk args.seed args.agent args.num_rounds args.num_problems
    args.topk_problems args.mutate_on_start args.openai_api_key 0)

/-- The external state one round draws on: the prompt directory, the
generation backend, and the streams of fresh uuids and timestamps
(indexed by position in the round). -/
structure Env where
  prompts : String → Option (String → String)
  backend : String → String → Option String
  freshIds : Nat → Nat
  times : Nat → Nat

/-- Model of `random.sample(l, k)` against a stream of random draws
`rand` (consumed from index `i` on): repeatedly pick an index into the
remaining list and remove the picked element, so the selection is
without replacement. -/
def randSample {α : Type} (rand : Nat → Nat) : Nat → Nat → List α → List α
  | _, 0, _ => []
  | _, _ + 1, [] => []
  | i, k + 1, c :: cs =>
    let l := c :: cs
    let j := rand i % l.length
    l.getD j c :: randSample rand (i + 1) k (l.eraseIdx j)

/-- The three-element list the round's `random.choice` draws from
(src/processor.py line 95). -/
def mutation_types : List String :=
  ["rephrase", "expand", "simplify"]

/-- The mutation loop body of `process_round`: for each selected
problem choose a mutation type from `mutation_types` with the next
random draw, attempt the mutation, and on success score the child and
collect it; on failure (any exception) log and skip.  `j` indexes the
random stream and the uuid/timestamp streams. -/
def processSelected (env : Env) (flesch : String → Rat) (rand : Nat → Nat) :
    Nat → List Problem → List Problem
  | _, [] => []
  | j, problem :: rest =>
    let mutation_type := mutation_types.getD (rand j % mutation_types.length) "rephrase"
    match mutate env.prompts env.backend (env.freshIds j) (env.times j)
        problem mutation_type with
    | Except.ok new_problem =>
      Problem.mk new_problem.id new_problem.content (evaluate_problem flesch new_problem)
          new_problem.parent_id new_problem.mutations new_problem.created_at
        :: processSelected env flesch rand (j + 1) rest
    | Except.error _ => processSelected env flesch rand (j + 1) rest

/-- The straggler-scoring pass of `process_round`: a problem whose
score is still the unscored sentinel 0 gets evaluated in place. -/
def scoreIfZero (flesch : String → Rat) (problem : Problem) : Problem :=
  if problem.score = 0 then
    Problem.mk problem.id problem.content (evaluate_problem flesch problem)
      problem.parent_id problem.mutations problem.created_at
  else problem

/-- The comparator of the final `sorted(..., key=score, reverse=True)`:
a stable merge sort under this Boolean relation keeps, like Python's
stable sort in reverse mode, the original relative order of entries
with equal scores while sorting descending. -/
def scoreDesc (a b : Problem) : Bool :=
  decide (b.score ≤ a.score)

/-- Model of `process_round` from src/processor.py: sample
min(num_problems, len(problems)) candidates without replacement,
mutate and score each (failures skipped), score the stragglers among
the originals, then sort children-before-originals descending by
score and keep the top `topk_problems`. -/
def process_round (cfg : Config) (env : Env) (flesch : String → Rat)
    (rand : Nat → Nat) (problems : List Problem) : List Problem :=
  let k := min cfg.num_problems.toNat problems.length
  let selected_problems := randSample rand 0 k problems
  let new_problems := processSelected env flesch rand k selected_problems
  let rescored := problems.map (scoreIfZero flesch)
  ((new_problems ++ rescored).mergeSort scoreDesc).take cfg.topk_problems.toNat

/-- The round loop of src/main.py: run `process_round` the given
number of times, each round drawing on its own slice of the external
streams. -/
def roundsLoop (cfg : Config) (envs : Nat → Env) (flesch : String → Rat)
    (rands : Nat → Nat → Nat) : Nat → List Problem → List Problem
  | 0, ps => ps
  | n + 1, ps =>
    roundsLoop cfg envs flesch rands n (process_round cfg (envs n) flesch (rands n) ps)

/-- The driver of src/main.py: validate the arguments first; only in
the success branch run the optional mutate-on-start pass and the
configured number of rounds.  A validation failure is returned as the
error before any round executes. -/
def runMain (envs : Nat → Env) (flesch : String → Rat) (rands : Nat → Nat → Nat)
    (seedProblems : List Problem) (args : Args) : Except String (List Problem) :=
  match Config.from_args args with
  | Except.error e => Except.error e
  | Except.ok cfg =>
    let start :=
      if cfg.mutate_on_start then
        process_round cfg (envs cfg.num_rounds.toNat) flesch (rands cfg.num_rounds.toNat)
          seedProblems
      else seedProblems
    Except.ok (roundsLoop cfg envs flesch rands cfg.num_rounds.toNat start)

/-- The scoring formula as the specification words it (§4.3): the
average of four factors, complexity = (min(wordCount/100, 1) +
techTermCount/5 + nestedCount/10)/3, clarity = (flesch/100 +
min((paragraphBreaks + 1)/5, 1) + format)/3, diversity =
min(distinctLabels/3, 1), mutationQuality = lineageLength/10.
Stated separately from `evaluate_problem` so that agreement between
code and spec is a theorem. -/
def scoreSpecFormula (flesch : String → Rat) (v : Problem) : Rat :=
  let complexity : Rat :=
    (min (((pySplitWords v.content.data).length : Rat) / 100) 1
      + (((pySplitWords v.content.data).countP fun w =>
            technical_terms.contains (w.map Char.toLower)) : Rat) / 5
      + ((countSubstr ("\n- ".data) v.content.data) : Rat) / 10) / 3
  let clarity : Rat :=
    (flesch v.content / 100
      + min (((countSubstr ("\n\n".data) v.content.data + 1) : Rat) / 5) 1
      + (if pyStrip v.content.data = v.content.data then (1 : Rat) else 8 / 10)) / 3
  let diversity : Rat := min ((v.mutations.dedup.length : Rat) / 3) 1
  let mutationQuality : Rat := (v.mutations.length : Rat) / 10
  (complexity + clarity + diversity + mutationQuality) / 4

/-- A readability oracle for concrete evaluations: every text reads 0. -/
def fleschZero : String → Rat := fun _ => 0

/-- A concrete prompt directory holding only the rephrase template. -/
def promptsW : String → Option (String → String) :=
  fun t => if t = "rephrase" then some (fun c => String.append "Rewrite: " c) else none

/-- A concrete backend returning a deterministic completion. -/
def backendW : String → String → Option String :=
  fun _ u => some (String.append "Mutated " u)

/-- A backend on which every call fails. -/
def backendFail : String → String → Option String := fun _ _ => none

/-- A concrete working environment. -/
def envW : Env := Env.mk promptsW backendW (fun j => j + 100) (fun j => j + 200)

/-- An environment on which every templating and backend call fails. -/
def envFail : Env := Env.mk (fun _ => none) backendFail (fun j => j) (fun j => j)

/-- A concrete seed problem. -/
def pW : Problem := Problem.mk 1 "Problem 1" 0 none [] 0

/-- The child `mutate promptsW backendW 7 3 pW "rephrase"` produces. -/
def childW : Problem := Problem.mk 7 "Mutated Problem 1" 0 (some pW.id) ["rephrase"] 3

/-- Two problems agreeing on content and lineage but nothing else. -/
def pA : Problem := Problem.mk 5 "Design a system" (37 / 10) (some 2) ["expand"] 9

/-- See `pA`. -/
def pB : Problem := Problem.mk 6 "Design a system" 0 none ["expand"] 11

/-- A problem with a deep lineage, used to evaluate the scorer
concretely. -/
def pBig : Problem := Problem.mk 0 "x" 0 none (List.replicate 50 "expand") 0

/-- A concrete valid configuration. -/
def cfgW : Config := Config.mk 42 "gpt-4" 5 10 1 false "key" 0

/-- Arguments with topk_problems exceeding num_problems. -/
def argsBad : Args := Args.mk 42 "gpt-4" 5 10 11 false "key"

/-- A concrete random stream. -/
def randW : Nat → Nat := fun _ => 0

/-- Inversion for a successful `mutate`: the template was found, the
backend answered, and the child has exactly the constructed fields. -/
theorem mutate_ok_inv (prompts : String → Option (String → String))
    (backend : String → String → Option String) (fid ts : Nat)
    (p : Problem) (t : String) (child : Problem)
    (h : mutate prompts backend fid ts p t = Except.ok child) :
    ∃ tmpl nc, prompts t = some tmpl ∧
      backend (tmpl p.content) p.content = some nc ∧
      child = Problem.mk fid nc 0 (some p.id) (p.mutations ++ [t]) ts := by
  unfold mutate at h
  rcases hP : prompts t with _ | tmpl <;> rw [hP] at h
  · exact absurd h (by simp)
  · rcases hB : backend (tmpl p.content) p.content with _ | nc <;>
      simp only [hB] at h
    · exact absurd h (by simp)
    · refine ⟨tmpl, nc, rfl, hB, ?_⟩
      cases h
      rfl

/-- C9: `Problem.create` with no parent returns a Problem whose content
is the given string, whose mutations list is empty, whose score is 0
and whose parent_id is None. -/
theorem create_fields (freshId timestamp : Nat) (c : String) :
    (Problem.create freshId timestamp c none).content = c ∧
    (Problem.create freshId timestamp c none).mutations = [] ∧
    (Problem.create freshId timestamp c none).score = 0 ∧
    (Problem.create freshId timestamp c none).parent_id = none :=
  ⟨rfl, rfl, rfl, rfl⟩

/-- C2: `evaluate_problem` computes exactly the four-factor average
formula of the specification, with the complexity, clarity, diversity
and mutation-quality sub-formulas as stated. -/
theorem evaluate_matches_formula (flesch : String → Rat) (v : Problem) :
    evaluate_problem flesch v = scoreSpecFormula flesch v := by
  simp only [evaluate_problem, calculate_complexity, calculate_clarity,
    calculate_diversity, scoreSpecFormula, technical_terms]
  norm_num

/-- C4: the scorer is deterministic in content and mutation history:
it ignores id, score, parent_id and created_at. -/
theorem evaluate_deterministic (flesch : String → Rat) (v1 v2 : Problem)
    (hc : v1.content = v2.content) (hm : v1.mutations = v2.mutations) :
    evaluate_problem flesch v1 = evaluate_problem flesch v2 := by
  simp only [evaluate_problem, calculate_complexity, calculate_clarity,
    calculate_diversity, hc, hm]

/-- Witness for C4 at two concrete problems sharing content and
lineage but differing in id, score, parent_id and created_at. -/
theorem evaluate_deterministic_witness :
    evaluate_problem fleschZero pA = evaluate_problem fleschZero pB :=
  evaluate_deterministic fleschZero pA pB rfl rfl

/-- C5: a successful `mutate(p, t)` yields a child with parent_id set
to p's id, lineage p.mutations + [t], and content equal verbatim to
the completion the backend returned for the formatted template. -/
theorem mutate_child_lineage (prompts : String → Option (String → String))
    (backend : String → String → Option String) (fid ts : Nat)
    (p : Problem) (t : String) (child : Problem)
    (h : mutate prompts backend fid ts p t = Except.ok child) :
    child.parent_id = some p.id ∧ child.mutations = p.mutations ++ [t] ∧
      ∃ tmpl, prompts t = some tmpl ∧
        backend (tmpl p.content) p.content = some child.content := by
  obtain ⟨tmpl, nc, hP, hB, hchild⟩ := mutate_ok_inv prompts backend fid ts p t child h
  subst hchild
  exact ⟨rfl, rfl, tmpl, hP, hB⟩

/-- Witness for C5 at a concrete environment, parent and mutation type. -/
theorem mutate_child_lineage_witness :
    childW.parent_id = some pW.id ∧ childW.mutations = pW.mutations ++ ["rephrase"] :=
  ⟨(mutate_child_lineage promptsW backendW 7 3 pW "rephrase" childW (by rfl)).1,
   (mutate_child_lineage promptsW backendW 7 3 pW "rephrase" childW (by rfl)).2.1⟩

/-- C10: `mutate` leaves the parent unchanged on every path (the
threaded translation returns the parent exactly as received, while
computing the same result as `mutate`), and a successful call builds
the child freshly through `Problem.create` (fresh id, fresh
timestamp), so the parent's mutations list is never extended in
place. -/
theorem mutate_parent_frame (prompts : String → Option (String → String))
    (backend : String → String → Option String) (fid ts : Nat)
    (p : Problem) (t : String) :
    (mutateTracked prompts backend fid ts p t).2 = p ∧
    (mutateTracked prompts backend fid ts p t).1 = mutate prompts backend fid ts p t ∧
    ∀ child, mutate prompts backend fid ts p t = Except.ok child →
      child.id = fid ∧ child.created_at = ts := by
  refine ⟨?_, ?_, ?_⟩
  · rcases hP : prompts t with _ | tmpl
    · simp [mutateTracked, hP]
    · rcases hB : backend (tmpl p.content) p.content with _ | nc <;>
        simp [mutateTracked, hP, hB]
  · rcases hP : prompts t with _ | tmpl
    · simp [mutateTracked, mutate, hP]
    · rcases hB : backend (tmpl p.content) p.content with _ | nc <;>
        simp [mutateTracked, mutate, hP, hB]
  · intro child h
    obtain ⟨tmpl, nc, _, _, hchild⟩ := mutate_ok_inv prompts backend fid ts p t child h
    subst hchild
    exact ⟨rfl, rfl⟩

/-- Witness for C10 at a concrete environment and parent. -/
theorem mutate_parent_frame_witness :
    (mutateTracked promptsW backendW 7 3 pW "rephrase").2 = pW ∧
      childW.id = 7 ∧ childW.created_at = 3 :=
  ⟨(mutate_parent_frame promptsW backendW 7 3 pW "rephrase").1,
    (mutate_parent_frame promptsW backendW 7 3 pW "rephrase").2.2 childW (by rfl)⟩

/-- C7: whenever topk_problems > num_problems, or any of num_rounds,
num_problems, topk_problems is < 1, `Config.from_args` raises a
ValidationError, and the driver returns that error with no round
executed. -/
theorem from_args_rejects (args : Args) (envs : Nat → Env)
    (flesch : String → Rat) (rands : Nat → Nat → Nat) (seedProblems : List Problem)
    (h : args.topk_problems > args.num_problems ∨ args.num_rounds < 1 ∨
      args.num_problems < 1 ∨ args.topk_problems < 1) :
    ∃ m, Config.from_args args = Except.error m ∧
      runMain envs flesch rands seedProblems args = Except.error m := by
  have herr : ∃ m, Config.from_args args = Except.error m := by
    unfold Config.from_args
    split_ifs <;> first | exact ⟨_, rfl⟩ | (exfalso; tauto)
  obtain ⟨m, hm⟩ := herr
  exact ⟨m, hm, by simp [runMain, hm]⟩

/-- Witness for C7: a concrete argument vector with topk_problems = 11
and num_problems = 10 is rejected at setup. -/
theorem from_args_rejects_witness :
    Config.from_args argsBad = Except.error "topk_problems cannot exceed num_problems" ∧
    runMain (fun _ => envW) fleschZero (fun _ => randW) [] argsBad
      = Except.error "topk_problems cannot exceed num_problems" := by
  obtain ⟨m, h1, h2⟩ := from_args_rejects argsBad (fun _ => envW) fleschZero
    (fun _ => randW) [] (Or.inl (by decide))
  have hc : Config.from_args argsBad
      = Except.error "topk_problems cannot exceed num_problems" := by rfl
  have hm : (Except.error "topk_problems cannot exceed num_problems" : Except String Config)
      = Except.error m := hc.symm.trans h1
  injection hm with hmv
  rw [← hmv] at h1 h2
  exact ⟨h1, h2⟩

/-- Removing the element drawn at index `j` and putting it in front is
a permutation of the original list. -/
theorem getD_eraseIdx_perm {α : Type} (l : List α) (j : Nat) (d : α)
    (h : j < l.length) : List.Perm (l.getD j d :: l.eraseIdx j) l := by
  induction l generalizing j with
  | nil => simp at h
  | cons a as ih =>
    cases j with
    | zero => simp
    | succ j =>
      have hj : j < as.length := by simpa using h
      rw [List.getD_cons_succ, List.eraseIdx_cons_succ]
      exact (List.Perm.swap a (as.getD j d) (as.eraseIdx j)).trans
        (List.Perm.cons a (ih j hj))

/-- The sample is drawn without replacement: it is a sub-permutation
of the population. -/
theorem randSample_subperm {α : Type} (rand : Nat → Nat) (k : Nat) :
    ∀ (i : Nat) (l : List α), (randSample rand i k l).Subperm l := by
  induction k with
  | zero => intro i l; exact List.nil_subperm
  | succ k ih =>
    intro i l
    cases l with
    | nil => exact List.nil_subperm
    | cons c cs =>
      have hj : rand i % (c :: cs).length < (c :: cs).length :=
        Nat.mod_lt _ (by simp)
      simp only [randSample]
      exact List.Subperm.trans
        ((List.subperm_cons _).mpr (ih (i + 1) ((c :: cs).eraseIdx _)))
        (getD_eraseIdx_perm (c :: cs) _ c hj).subperm

/-- The sample has exactly `min k |l|` entries. -/
theorem randSample_length {α : Type} (rand : Nat → Nat) (k : Nat) :
    ∀ (i : Nat) (l : List α), (randSample rand i k l).length = min k l.length := by
  induction k with
  | zero => intro i l; simp [randSample]
  | succ k ih =>
    intro i l
    cases l with
    | nil => simp [randSample]
    | cons c cs =>
      have hj : rand i % (c :: cs).length < (c :: cs).length :=
        Nat.mod_lt _ (by simp)
      simp only [randSample, List.length_cons]
      rw [ih, List.length_eraseIdx]
      simp only [List.length_cons] at hj ⊢
      rw [if_pos hj]
      omega

/-- The final sort of a round is descending in score. -/
theorem scoreDesc_pairwise_sorted (l : List Problem) :
    List.Pairwise (fun a b => b.score ≤ a.score) (l.mergeSort scoreDesc) := by
  have h := @List.sorted_mergeSort Problem scoreDesc
    (fun a b c hab hbc => by
      simp only [scoreDesc, decide_eq_true_eq] at hab hbc ⊢
      exact le_trans hbc hab)
    (fun a b => by
      simp only [scoreDesc]
      rcases le_total a.score b.score with h | h <;> simp [h])
    l
  exact h.imp (fun hab => by
    simpa only [scoreDesc, decide_eq_true_eq] using hab)

/-- C1: for every population and every outcome of the sampling and of
the backend, the round output has at most topk_problems entries and is
sorted descending by score (stated for a validated, hence positive,
topk_problems). -/
theorem process_round_bounded_sorted (cfg : Config) (env : Env)
    (flesch : String → Rat) (rand : Nat → Nat) (problems : List Problem)
    (htop : 1 ≤ cfg.topk_problems) :
    ((process_round cfg env flesch rand problems).length : Int) ≤ cfg.topk_problems ∧
    List.Pairwise (fun a b => b.score ≤ a.score)
      (process_round cfg env flesch rand problems) := by
  constructor
  · have hlen : (process_round cfg env flesch rand problems).length
        ≤ cfg.topk_problems.toNat := by
      simp only [process_round, List.length_take]
      omega
    omega
  · simp only [process_round]
    exact List.Pairwise.sublist (List.take_sublist _ _) (scoreDesc_pairwise_sorted _)

/-- Witness for C1 on a concrete configuration and population. -/
theorem process_round_bounded_sorted_witness :
    ((process_round cfgW envW fleschZero randW []).length : Int) ≤ cfgW.topk_problems ∧
    List.Pairwise (fun a b => b.score ≤ a.score)
      (process_round cfgW envW fleschZero randW []) :=
  process_round_bounded_sorted cfgW envW fleschZero randW [] (by decide)

/-- When every backend call fails, every `mutate` call errors. -/
theorem mutate_fails_of_backend_none (prompts : String → Option (String → String))
    (backend : String → String → Option String)
    (hfail : ∀ s u, backend s u = none) (fid ts : Nat) (p : Problem) (t : String) :
    ∃ m, mutate prompts backend fid ts p t = Except.error m := by
  unfold mutate
  rcases prompts t with _ | tmpl
  · exact ⟨_, rfl⟩
  · dsimp only
    rw [hfail]
    exact ⟨_, rfl⟩

/-- When every backend call fails, no child is produced. -/
theorem processSelected_all_fail (env : Env) (flesch : String → Rat)
    (rand : Nat → Nat) (hfail : ∀ s u, env.backend s u = none) :
    ∀ (j : Nat) (sel : List Problem), processSelected env flesch rand j sel = [] := by
  intro j sel
  induction sel generalizing j with
  | nil => rfl
  | cons p rest ih =>
    obtain ⟨m, hm⟩ := mutate_fails_of_backend_none env.prompts env.backend hfail
      (env.freshIds j) (env.times j) p
      (mutation_types.getD (rand j % mutation_types.length) "rephrase")
    simp only [processSelected, hm]
    exact ih (j + 1)

/-- C6: a round in which every backend call fails still returns a
non-empty population of exactly min(topk_problems, |P|) entries,
all of them carried-over originals (straggler-scored), sorted
descending by score; the round function is total, so the round itself
raises nothing. -/
theorem process_round_all_fail (cfg : Config) (env : Env) (flesch : String → Rat)
    (rand : Nat → Nat) (problems : List Problem)
    (hne : problems ≠ []) (htop : 1 ≤ cfg.topk_problems)
    (hfail : ∀ s u, env.backend s u = none) :
    process_round cfg env flesch rand problems ≠ [] ∧
    (process_round cfg env flesch rand problems).length
      = min cfg.topk_problems.toNat problems.length ∧
    (∀ x ∈ process_round cfg env flesch rand problems,
      x ∈ problems.map (scoreIfZero flesch)) ∧
    List.Pairwise (fun a b => b.score ≤ a.score)
      (process_round cfg env flesch rand problems) := by
  have hsel := processSelected_all_fail env flesch rand hfail
    (min cfg.num_problems.toNat problems.length)
    (randSample rand 0 (min cfg.num_problems.toNat problems.length) problems)
  have hlenL : ((problems.map (scoreIfZero flesch)).mergeSort scoreDesc).length
      = problems.length := by
    rw [List.length_mergeSort, List.length_map]
  refine ⟨?_, ?_, ?_, ?_⟩
  · apply List.ne_nil_of_length_pos
    simp only [process_round, hsel, List.nil_append, List.length_take, hlenL]
    have h2 : 0 < problems.length := List.length_pos.mpr hne
    omega
  · simp only [process_round, hsel, List.nil_append, List.length_take, hlenL]
  · intro x hx
    simp only [process_round, hsel, List.nil_append] at hx
    have hx2 : x ∈ (problems.map (scoreIfZero flesch)).mergeSort scoreDesc :=
      List.Sublist.mem hx (List.take_sublist _ _)
    exact (List.mergeSort_perm _ _).mem_iff.mp hx2
  · simp only [process_round, hsel, List.nil_append]
    exact List.Pairwise.sublist (List.take_sublist _ _) (scoreDesc_pairwise_sorted _)

/-- Witness for C6 on a concrete singleton population and an
environment whose calls all fail. -/
theorem process_round_all_fail_witness :
    process_round cfgW envFail fleschZero randW [pW] ≠ [] ∧
    (process_round cfgW envFail fleschZero randW [pW]).length
      = min cfgW.topk_problems.toNat [pW].length :=
  ⟨(process_round_all_fail cfgW envFail fleschZero randW [pW]
      (List.cons_ne_nil pW []) (by decide) (fun s u => rfl)).1,
   (process_round_all_fail cfgW envFail fleschZero randW [pW]
      (List.cons_ne_nil pW []) (by decide) (fun s u => rfl)).2.1⟩

/-- C8: the round's random mutation choice always lands in the
three-element list {rephrase, expand, simplify} (never
add_constraints), and the round's sample, as built by `process_round`,
has exactly min(num_problems, |P|) entries drawn without replacement
(a sub-permutation of the population). -/
theorem round_choice_and_sample (cfg : Config) (rand : Nat → Nat) (j : Nat)
    (problems : List Problem) :
    (mutation_types.getD (rand j % mutation_types.length) "rephrase" ∈ mutation_types
      ∧ mutation_types.getD (rand j % mutation_types.length) "rephrase"
          ≠ "add_constraints")
    ∧ (randSample rand 0 (min cfg.num_problems.toNat problems.length) problems).length
        = min cfg.num_problems.toNat problems.length
    ∧ (randSample rand 0 (min cfg.num_problems.toNat problems.length)
        problems).Subperm problems := by
  have hlen3 : mutation_types.length = 3 := rfl
  have h3 : rand j % mutation_types.length < 3 := by
    rw [hlen3]
    exact Nat.mod_lt _ (by decide)
  have hv : rand j % mutation_types.length = 0 ∨
      rand j % mutation_types.length = 1 ∨ rand j % mutation_types.length = 2 := by
    omega
  refine ⟨⟨?_, ?_⟩, ?_, ?_⟩
  · rcases hv with h | h | h <;> rw [h] <;> decide
  · rcases hv with h | h | h <;> rw [h] <;> decide
  · rw [randSample_length]
    omega
  · exact randSample_subperm rand _ 0 problems

/-- Witness for C8 at a concrete configuration, stream and population. -/
theorem round_choice_and_sample_witness :
    (mutation_types.getD (randW 0 % mutation_types.length) "rephrase" ∈ mutation_types
      ∧ mutation_types.getD (randW 0 % mutation_types.length) "rephrase"
          ≠ "add_constraints")
    ∧ (randSample randW 0 (min cfgW.num_problems.toNat [pW].length) [pW]).length
        = min cfgW.num_problems.toNat [pW].length
    ∧ (randSample randW 0 (min cfgW.num_problems.toNat [pW].length)
        [pW]).Subperm [pW] :=
  round_choice_and_sample cfgW randW 0 [pW]

/-- C3 fails as stated: a problem with a 50-step lineage scores above
1 (readability oracle pinned to 0), so the scorer's range is not
contained in [0, 1]. -/
theorem evaluate_above_one : 1 < evaluate_problem fleschZero pBig := by
  have h1 : (pySplitWords pBig.content.data).length = 1 := by decide
  have h2 : (pySplitWords pBig.content.data).countP
      (fun w => technical_terms.contains (w.map Char.toLower)) = 0 := by decide
  have h3 : countSubstr ("\n- ".data) pBig.content.data = 0 := by decide
  have h4 : countSubstr ("\n\n".data) pBig.content.data = 0 := by decide
  have h5 : pyStrip pBig.content.data = pBig.content.data := by decide
  have h6 : pBig.mutations.dedup.length = 1 := by decide
  have h7 : pBig.mutations.length = 50 := by decide
  have h8 : technical_terms.length = 5 := by decide
  have hflesch : fleschZero pBig.content = 0 := rfl
  simp only [evaluate_problem, calculate_complexity, calculate_clarity,
    calculate_diversity, h1, h2, h3, h4, h5, h6, h7, h8, hflesch]
  norm_num [min_def]

/-- C3 amended: the score is nonnegative whenever the readability
index of the content is nonnegative, but it is not bounded above
by 1. -/
theorem evaluate_nonneg (flesch : String → Rat) (v : Problem)
    (h : 0 ≤ flesch v.content) : 0 ≤ evaluate_problem flesch v := by
  have hc : 0 ≤ calculate_complexity v := by
    simp only [calculate_complexity]
    refine div_nonneg (add_nonneg (add_nonneg ?_ ?_) ?_) (by norm_num)
    · exact le_min (div_nonneg (Nat.cast_nonneg _) (by norm_num)) zero_le_one
    · exact div_nonneg (Nat.cast_nonneg _) (Nat.cast_nonneg _)
    · exact div_nonneg (Nat.cast_nonneg _) (by norm_num)
  have hcl : 0 ≤ calculate_clarity flesch v := by
    simp only [calculate_clarity]
    refine div_nonneg (add_nonneg (add_nonneg ?_ ?_) ?_) (by norm_num)
    · exact div_nonneg h (by norm_num)
    · exact le_min (div_nonneg (Nat.cast_nonneg _) (by norm_num)) zero_le_one
    · split <;> norm_num
  have hd : 0 ≤ calculate_diversity v := by
    simp only [calculate_diversity]
    exact le_min (div_nonneg (Nat.cast_nonneg _) (by norm_num)) zero_le_one
  have hm : (0 : Rat) ≤ (v.mutations.length : Rat) / 10 :=
    div_nonneg (Nat.cast_nonneg _) (by norm_num)
  simp only [evaluate_problem]
  exact div_nonneg (add_nonneg (add_nonneg (add_nonneg hc hcl) hd) hm) (by norm_num)

/-- Witness for the amended C3 at a concrete problem and oracle. -/
theorem evaluate_nonneg_witness : 0 ≤ evaluate_problem fleschZero pW :=
  evaluate_nonneg fleschZero pW (le_refl 0)
